import Mathlib

/-!
Verification development for the Task Lifecycle & Cancellation Orchestrator
of the AudioMuse-AI backend (`app.py`).

The definitions below are a shallow embedding of the Python source:

* the PostgreSQL `task_status` table becomes a list of `TaskRow` records;
* the JSON `details` column becomes an `Option DetailsText`, where
  `DetailsText.valid` holds a structured envelope of the recognized keys
  (per the data-model design: `log`, `log_storage_info`, plus the other
  concretely used keys) and `DetailsText.malformed` models a stored text
  that `json.loads` rejects;
* the RQ queue engine becomes a read-only map from job ids to live
  `RQStatus` values (the adapter contract: fetch may fail with
  `NoSuchJobError`, a live job has one of the five contract states);
* Unix timestamps (`DOUBLE PRECISION` seconds) become rationals;
* code that can raise to its caller returns `Except String`.

Recursive SQL-driven tree walks take an explicit fuel argument for
termination; theorems supply enough fuel for the tree at hand, which makes
them faithful to the unbounded Python recursion on those inputs.
-/

/-- The six durable task statuses of `app.py` (`TASK_STATUS_*` constants). -/
inductive TaskStatus
  | PENDING
  | STARTED
  | PROGRESS
  | SUCCESS
  | FAILURE
  | REVOKED
deriving DecidableEq

/-- The string stored in the `status` column for each status constant. -/
def TaskStatus.str : TaskStatus → String
  | .PENDING => "PENDING"
  | .STARTED => "STARTED"
  | .PROGRESS => "PROGRESS"
  | .SUCCESS => "SUCCESS"
  | .FAILURE => "FAILURE"
  | .REVOKED => "REVOKED"

/-- `status IN ('SUCCESS', 'FAILURE', 'REVOKED')`: the terminal statuses,
as tested by the SQL upsert in `save_task_status`. -/
def TaskStatus.isTerminal : TaskStatus → Bool
  | .SUCCESS => true
  | .FAILURE => true
  | .REVOKED => true
  | _ => false

/-- The five live states of the RQ queue-engine adapter contract. -/
inductive RQStatus
  | queued
  | started
  | finished
  | failed
  | canceled
deriving DecidableEq

/-- The string RQ reports for each job state (`job.get_status()`). -/
def RQStatus.str : RQStatus → String
  | .queued => "queued"
  | .started => "started"
  | .finished => "finished"
  | .failed => "failed"
  | .canceled => "canceled"

/-- `job.is_finished or job.is_failed or job.is_canceled`: the terminal
engine states. -/
def RQStatus.terminalRQ : RQStatus → Bool
  | .finished => true
  | .failed => true
  | .canceled => true
  | _ => false

/-- The nested `details.best_params.clustering_method_config.params`
object, of which `get_active_tasks_endpoint` prunes `initial_centroids`. -/
structure CMCParams where
  initial_centroids : Option (List (List ℚ)) := none
deriving DecidableEq

/-- The nested `details.best_params.clustering_method_config` object. -/
structure ClusteringMethodConfig where
  params : Option CMCParams := none
deriving DecidableEq

/-- The nested `details.best_params` object. -/
structure BestParams where
  clustering_method_config : Option ClusteringMethodConfig := none
deriving DecidableEq

/-- The structured envelope for a parsed `details` JSON object: the keys
`app.py` reads or writes, each optional (`none` models an absent key). -/
structure Details where
  log : Option (List String) := none
  log_storage_info : Option String := none
  message : Option String := none
  status_message : Option String := none
  original_status_before_archival : Option String := none
  archival_reason : Option String := none
  checked_album_ids : Option (List String) := none
  clustering_run_job_ids : Option (List String) := none
  error_message : Option String := none
  raw_details : Option String := none
  error : Option String := none
  best_params : Option BestParams := none
deriving DecidableEq

/-- The raw text persisted in the `details` column: either the
serialization of a structured object (what `json.dumps` produced) or a
text that `json.loads` rejects. -/
inductive DetailsText
  | valid (d : Details)
  | malformed (raw : String)
deriving DecidableEq

/-- One row of the `task_status` table (schema created by `init_db`;
`task_id` is UNIQUE NOT NULL, `task_type` NOT NULL, `start_time` and
`end_time` are `DOUBLE PRECISION` Unix timestamps). -/
structure TaskRow where
  task_id : String
  parent_task_id : Option String
  task_type : String
  sub_type_identifier : Option String
  status : TaskStatus
  progress : Nat
  details : Option DetailsText
  timestamp : ℚ
  start_time : Option ℚ
  end_time : Option ℚ
deriving DecidableEq

/-- The durable task store: the rows of `task_status`. -/
abbrev Store := List TaskRow

/-- The live queue engine: `Job.fetch` by id, `none` models
`NoSuchJobError`. -/
abbrev Engine := String → Option RQStatus

/-- `SELECT ... FROM task_status WHERE task_id = %s` (single row by the
UNIQUE key), as used by `get_task_info_from_db`. -/
def dbFind : Store → String → Option TaskRow
  | [], _ => none
  | r :: rest, id => if r.task_id = id then some r else dbFind rest id

/-- `SELECT ... FROM task_status WHERE parent_task_id = %s`
(`get_child_tasks_from_db`). -/
def childTasks : Store → String → List TaskRow
  | [], _ => []
  | r :: rest, pid =>
      if r.parent_task_id = some pid then r :: childTasks rest pid
      else childTasks rest pid

/-- `MAX_LOG_ENTRIES_STORED` in `app.py`. -/
def MAX_LOG_ENTRIES_STORED : Nat := 10

/-- The in-place normalization `save_task_status` applies to its `details`
argument before serializing it (log truncation for non-SUCCESS writes,
annotation clearing and confirmation entry for SUCCESS writes). -/
def normalizeDetails (status : TaskStatus) (details : Option Details) :
    Option Details :=
  match details with
  | none => none
  | some d =>
    if status ≠ TaskStatus.SUCCESS then
      match d.log with
      | some l =>
        if l.length > MAX_LOG_ENTRIES_STORED then
          some { d with
            log := some (l.drop (l.length - MAX_LOG_ENTRIES_STORED)),
            log_storage_info := some ("Log in DB truncated to last "
              ++ toString MAX_LOG_ENTRIES_STORED
              ++ " entries. Original length: " ++ toString l.length ++ ".") }
        else
          some { d with log_storage_info := none }
      | none => some d
    else
      let d1 := { d with log_storage_info := (none : Option String) }
      match d1.log with
      | some l =>
        if l.isEmpty then
          some { d1 with log := some ["Task completed successfully."] }
        else some d1
      | none => some { d1 with log := some ["Task completed successfully."] }

/-- One invocation of `save_task_status`: its arguments plus the
`time.time()` value read during the call. -/
structure SaveCall where
  task_id : String
  task_type : String
  status : TaskStatus := .PENDING
  parent_task_id : Option String := none
  sub_type_identifier : Option String := none
  progress : Nat := 0
  details : Option Details := none
  now : ℚ
deriving DecidableEq

/-- The row produced by the `INSERT ... ON CONFLICT (task_id) DO UPDATE`
of `save_task_status`: `old = none` is the insert arm, `old = some r` the
conflict arm.  On conflict, `task_type` is not in the update list and so
keeps its stored value; `start_time` is `COALESCE(task_status.start_time,
now)`; `end_time` is set only when the incoming status is terminal and the
stored `end_time` is NULL. -/
def upsertRow (c : SaveCall) (old : Option TaskRow) : TaskRow :=
  let dj : Option DetailsText :=
    (normalizeDetails c.status c.details).map DetailsText.valid
  match old with
  | none =>
    { task_id := c.task_id
      parent_task_id := c.parent_task_id
      task_type := c.task_type
      sub_type_identifier := c.sub_type_identifier
      status := c.status
      progress := c.progress
      details := dj
      timestamp := c.now
      start_time := some c.now
      end_time := if c.status.isTerminal then some c.now else none }
  | some r =>
    { task_id := r.task_id
      parent_task_id := c.parent_task_id
      task_type := r.task_type
      sub_type_identifier := c.sub_type_identifier
      status := c.status
      progress := c.progress
      details := dj
      timestamp := c.now
      start_time := (match r.start_time with
        | some t => some t
        | none => some c.now)
      end_time := (match r.end_time with
        | some t => some t
        | none => if c.status.isTerminal then some c.now else none) }

/-- Applies the conflict arm of the upsert to every row keyed by the
call's `task_id` (at most one, by the UNIQUE constraint). -/
def updateRows (c : SaveCall) : Store → Store
  | [] => []
  | r :: rest =>
      (if r.task_id = c.task_id then upsertRow c (some r) else r)
        :: updateRows c rest

/-- `save_task_status` as a store transformer: normalize details, then
upsert by `task_id`. -/
def save_task_status (c : SaveCall) (s : Store) : Store :=
  if (dbFind s c.task_id).isSome then updateRows c s
  else s ++ [upsertRow c none]

/-- `running_time_seconds` as computed by `get_task_info_from_db`: `0.0`
when `start_time IS NULL`, else `max 0 (end_time_effective - start_time)`
with `end_time_effective` the stored `end_time` if set, else now. -/
def runningTimeDb (now : ℚ) (row : TaskRow) : ℚ :=
  match row.start_time with
  | none => 0
  | some t => max 0 ((row.end_time.getD now) - t)

/-- `get_task_info_from_db`: the row joined with its derived
`running_time_seconds`. -/
def get_task_info_from_db (now : ℚ) (s : Store) (id : String) :
    Option (TaskRow × ℚ) :=
  (dbFind s id).map (fun r => (r, runningTimeDb now r))

example :
    normalizeDetails .PENDING
      (some { log := some ["a", "b", "c", "d", "e"] }) =
    some { log := some ["a", "b", "c", "d", "e"] } := by decide

example :
    (normalizeDetails .PROGRESS
      (some { log := some (List.replicate 15 "x") })).map Details.log =
    some (some (List.replicate 10 "x")) := by decide

example :
    (normalizeDetails .SUCCESS (some { log := some [] })).map Details.log =
    some (some ["Task completed successfully."]) := by decide

/-- The conflict arm of the upsert keeps the stored row's key. -/
theorem upsertRow_task_id_some (c : SaveCall) (r : TaskRow) :
    (upsertRow c (some r)).task_id = r.task_id := rfl

/-- The insert arm of the upsert uses the call's key. -/
theorem upsertRow_task_id_none (c : SaveCall) :
    (upsertRow c none).task_id = c.task_id := rfl

/-- Looking a key up past rows that do not contain it. -/
theorem dbFind_append_of_none {s1 : Store} {id : String}
    (h : dbFind s1 id = none) (s2 : Store) :
    dbFind (s1 ++ s2) id = dbFind s2 id := by
  induction s1 with
  | nil => rfl
  | cons a rest ih =>
    by_cases ha : a.task_id = id
    · simp [dbFind, ha] at h
    · simp only [dbFind, ha, if_false, List.cons_append] at h ⊢
      exact ih h

/-- The upsert's conflict arm rewrites exactly the row keyed by the call's
`task_id`, as seen through a lookup. -/
theorem dbFind_updateRows (c : SaveCall) (s : Store) :
    dbFind (updateRows c s) c.task_id =
      (dbFind s c.task_id).map (fun r => upsertRow c (some r)) := by
  induction s with
  | nil => simp [dbFind, updateRows]
  | cons a rest ih =>
    by_cases ha : a.task_id = c.task_id
    · simp [dbFind, updateRows, ha, upsertRow_task_id_some]
    · simp [dbFind, updateRows, ha, ih]

/-- `save_task_status` leaves, at the call's key, exactly the upsert of
whatever row was stored there before. -/
theorem save_task_status_find (c : SaveCall) (s : Store) :
    dbFind (save_task_status c s) c.task_id =
      some (upsertRow c (dbFind s c.task_id)) := by
  unfold save_task_status
  cases h : dbFind s c.task_id with
  | none =>
    simp only [h, Option.isSome_none, Bool.false_eq_true, if_false]
    rw [dbFind_append_of_none h]
    simp [dbFind, upsertRow_task_id_none]
  | some r =>
    simp [h, dbFind_updateRows]

/-- A sequence of `save_task_status` calls applied to the store. -/
def runSaves (cs : List SaveCall) (s : Store) : Store :=
  cs.foldl (fun st c => save_task_status c st) s

/-- The same sequence seen at row level: the first call takes the insert
arm, every later call the conflict arm. -/
def runCalls (c : SaveCall) (cs : List SaveCall) : TaskRow :=
  cs.foldl (fun r c2 => upsertRow c2 (some r)) (upsertRow c none)

/-- A stored `start_time` survives any later upsert (`COALESCE`). -/
theorem foldl_upsert_start (cs : List SaveCall) :
    ∀ (r : TaskRow) (t : ℚ), r.start_time = some t →
    (cs.foldl (fun r c2 => upsertRow c2 (some r)) r).start_time = some t := by
  induction cs with
  | nil => intro r t h; simpa using h
  | cons c cs ih =>
    intro r t h
    simp only [List.foldl_cons]
    exact ih _ t (by simp [upsertRow, h])

/-- A stored `end_time` survives any later upsert (`CASE ... ELSE
task_status.end_time`). -/
theorem foldl_upsert_end_some (cs : List SaveCall) :
    ∀ (r : TaskRow) (t : ℚ), r.end_time = some t →
    (cs.foldl (fun r c2 => upsertRow c2 (some r)) r).end_time = some t := by
  induction cs with
  | nil => intro r t h; simpa using h
  | cons c cs ih =>
    intro r t h
    simp only [List.foldl_cons]
    exact ih _ t (by simp [upsertRow, h])

/-- While `end_time` is NULL, it gets set exactly by the first terminal
call of the remaining sequence. -/
theorem foldl_upsert_end_none (cs : List SaveCall) :
    ∀ (r : TaskRow), r.end_time = none →
    (cs.foldl (fun r c2 => upsertRow c2 (some r)) r).end_time =
      (cs.find? (fun x => x.status.isTerminal)).map SaveCall.now := by
  induction cs with
  | nil => intro r h; simpa using h
  | cons c cs ih =>
    intro r h
    simp only [List.foldl_cons]
    cases hc : c.status.isTerminal with
    | true =>
      simp only [List.find?_cons, hc]
      exact foldl_upsert_end_some cs _ c.now (by simp [upsertRow, h, hc])
    | false =>
      simp only [List.find?_cons, hc]
      exact ih _ (by simp [upsertRow, h, hc])

/-- Store-level to row-level reduction for a single-id call sequence. -/
theorem runSaves_found (id : String) :
    ∀ (cs : List SaveCall) (s : Store) (r : TaskRow),
    (∀ x ∈ cs, x.task_id = id) → dbFind s id = some r →
    dbFind (runSaves cs s) id =
      some (cs.foldl (fun r c2 => upsertRow c2 (some r)) r) := by
  intro cs
  induction cs with
  | nil => intro s r _ h; simpa [runSaves] using h
  | cons c cs ih =>
    intro s r hall h
    have hc : c.task_id = id := hall c (by simp)
    have step := save_task_status_find c s
    rw [hc, h] at step
    simp only [runSaves, List.foldl_cons]
    exact ih (save_task_status c s) (upsertRow c (some r))
      (fun x hx => hall x (by simp [hx])) step

/-- Claim C5: over any sequence of `save_task_status` upserts on one
`task_id` (starting from a store without that id), `start_time` is set by
the first call and never changed afterwards (first write wins via
coalesce), and `end_time` equals the `time.time()` of the first call whose
incoming status is terminal — set while the stored `end_time` was still
unset and never overwritten afterwards. -/
theorem save_task_status_time_columns (id : String) (c : SaveCall)
    (cs : List SaveCall) (s : Store)
    (hc : c.task_id = id) (hcs : ∀ x ∈ cs, x.task_id = id)
    (h0 : dbFind s id = none) :
    dbFind (runSaves (c :: cs) s) id = some (runCalls c cs) ∧
    (runCalls c cs).start_time = some c.now ∧
    (runCalls c cs).end_time =
      ((c :: cs).find? (fun x => x.status.isTerminal)).map SaveCall.now := by
  refine ⟨?_, ?_, ?_⟩
  · have step := save_task_status_find c s
    rw [hc, h0] at step
    simp only [runSaves, List.foldl_cons]
    exact runSaves_found id cs (save_task_status c s) (upsertRow c none)
      hcs step
  · exact foldl_upsert_start cs (upsertRow c none) c.now (by simp [upsertRow])
  · cases hterm : c.status.isTerminal with
    | true =>
      simp only [List.find?_cons, hterm]
      exact foldl_upsert_end_some cs _ c.now (by simp [upsertRow, hterm])
    | false =>
      simp only [List.find?_cons, hterm]
      exact foldl_upsert_end_none cs (upsertRow c none)
        (by simp [upsertRow, hterm])

/-- Witness for C5 at a concrete three-call sequence (STARTED, then
SUCCESS, then FAILURE): `start_time` stays at the first call's clock and
`end_time` at the SUCCESS call's clock. -/
theorem save_task_status_time_columns_witness :
    (({ task_id := "t1", task_type := "main_analysis", status := .STARTED,
        now := 5 } : SaveCall).task_id = "t1") ∧
    (dbFind (runSaves
        [{ task_id := "t1", task_type := "main_analysis", status := .STARTED,
           now := 5 },
         { task_id := "t1", task_type := "main_analysis", status := .SUCCESS,
           progress := 100, now := 7 },
         { task_id := "t1", task_type := "main_analysis", status := .FAILURE,
           now := 9 }] []) "t1"
      = some (runCalls
          { task_id := "t1", task_type := "main_analysis", status := .STARTED,
            now := 5 }
          [{ task_id := "t1", task_type := "main_analysis", status := .SUCCESS,
             progress := 100, now := 7 },
           { task_id := "t1", task_type := "main_analysis", status := .FAILURE,
             now := 9 }])) ∧
    (runCalls
        { task_id := "t1", task_type := "main_analysis", status := .STARTED,
          now := 5 }
        [{ task_id := "t1", task_type := "main_analysis", status := .SUCCESS,
           progress := 100, now := 7 },
         { task_id := "t1", task_type := "main_analysis", status := .FAILURE,
           now := 9 }]).start_time = some 5 ∧
    (runCalls
        { task_id := "t1", task_type := "main_analysis", status := .STARTED,
          now := 5 }
        [{ task_id := "t1", task_type := "main_analysis", status := .SUCCESS,
           progress := 100, now := 7 },
         { task_id := "t1", task_type := "main_analysis", status := .FAILURE,
           now := 9 }]).end_time = some 7 := by
  have h := save_task_status_time_columns "t1"
    { task_id := "t1", task_type := "main_analysis", status := .STARTED,
      now := 5 }
    [{ task_id := "t1", task_type := "main_analysis", status := .SUCCESS,
       progress := 100, now := 7 },
     { task_id := "t1", task_type := "main_analysis", status := .FAILURE,
       now := 9 }] []
    (by decide) (by decide) (by decide)
  refine ⟨by decide, h.1, h.2.1, ?_⟩
  rw [h.2.2]
  decide

/-- Claim C6: `save_task_status` persists the normalized details: for a
non-SUCCESS write, a 15-entry log is cut to its last 10 entries plus a
truncation annotation recording the original length, while a 5-entry log
is stored unchanged with no annotation; for a SUCCESS write the annotation
is cleared and an empty or missing log is replaced by a single
confirmation entry. -/
theorem save_task_status_log_cap (c : SaveCall) (old : Option TaskRow)
    (d : Details) (l15 l5 : List String) :
    ((upsertRow c old).details
        = (normalizeDetails c.status c.details).map DetailsText.valid)
  ∧ (c.status ≠ TaskStatus.SUCCESS → l15.length = 15 →
      normalizeDetails c.status (some { d with log := some l15 })
        = some { d with
            log := some (l15.drop 5),
            log_storage_info := some
              "Log in DB truncated to last 10 entries. Original length: 15." })
  ∧ (l5.length = 5 →
      normalizeDetails c.status (some { d with log := some l5 })
        = some { d with log := some l5, log_storage_info := none })
  ∧ (normalizeDetails TaskStatus.SUCCESS (some { d with log := none })
        = some { d with
            log := some ["Task completed successfully."],
            log_storage_info := none })
  ∧ (normalizeDetails TaskStatus.SUCCESS (some { d with log := some [] })
        = some { d with
            log := some ["Task completed successfully."],
            log_storage_info := none }) := by
  refine ⟨?_, ?_, ?_, ?_, ?_⟩
  · cases old <;> rfl
  · intro hs h15
    simp only [normalizeDetails, hs, ne_eq, not_false_iff, if_true, h15,
      MAX_LOG_ENTRIES_STORED]
    norm_num
    rfl
  · intro h5
    by_cases hs : c.status = TaskStatus.SUCCESS
    · have hne : ¬ l5.isEmpty := by
        cases l5 with
        | nil => simp at h5
        | cons a t => simp
      simp [normalizeDetails, hs, hne]
    · simp [normalizeDetails, hs, h5, MAX_LOG_ENTRIES_STORED]
  · simp [normalizeDetails]
  · simp [normalizeDetails]

/-- Witness for C6 at concrete inputs: a PROGRESS write with a 15-entry
log and a 5-entry log, and a SUCCESS write with missing and empty logs. -/
theorem save_task_status_log_cap_witness :
    (TaskStatus.PROGRESS ≠ TaskStatus.SUCCESS) ∧
    ((List.replicate 15 "x").length = 15) ∧
    ((["a", "b", "c", "d", "e"] : List String).length = 5) ∧
    (normalizeDetails .PROGRESS (some { log := some (List.replicate 15 "x") })
      = some {
          log := some (List.replicate 10 "x"),
          log_storage_info := some
            "Log in DB truncated to last 10 entries. Original length: 15." }) ∧
    (normalizeDetails .PROGRESS (some { log := some ["a", "b", "c", "d", "e"] })
      = some {
          log := some ["a", "b", "c", "d", "e"],
          log_storage_info := none }) ∧
    (normalizeDetails .SUCCESS (some { log := none })
      = some {
          log := some ["Task completed successfully."],
          log_storage_info := none }) ∧
    (normalizeDetails .SUCCESS (some { log := some [] })
      = some {
          log := some ["Task completed successfully."],
          log_storage_info := none }) := by
  have h := save_task_status_log_cap
    { task_id := "t1", task_type := "main_analysis", status := .PROGRESS,
      now := 0 }
    none {} (List.replicate 15 "x") ["a", "b", "c", "d", "e"]
  refine ⟨by decide, by decide, by decide, ?_, ?_, ?_, ?_⟩
  · have := h.2.1 (by decide) (by decide)
    rw [this]
    decide
  · exact h.2.2.1 (by decide)
  · exact h.2.2.2.1
  · exact h.2.2.2.2

/-- The outcome of one `save_task_status` call as observed by its caller:
the resulting store, whether the transaction committed or rolled back, and
whether an exception propagated out of the function. -/
structure SaveOutcome where
  store : Store
  committed : Bool
  rolledBack : Bool
  raised : Bool
deriving DecidableEq

/-- `save_task_status` with its `try ... except psycopg2.Error` wrapper:
`dbError = true` models the execute/commit raising a transient store
error, in which case the handler logs the error, rolls the transaction
back, and returns normally — the except branch contains no re-raise, so
nothing propagates to the caller. -/
def save_task_status_run (dbError : Bool) (c : SaveCall) (s : Store) :
    SaveOutcome :=
  if dbError then
    { store := s, committed := false, rolledBack := true, raised := false }
  else
    { store := save_task_status c s, committed := true,
      rolledBack := false, raised := false }

/-- Counterexample to claim C3 as stated: on a transient store error
during a `save_task_status` write, the transaction is rolled back, but no
failure reaches the caller — the `except psycopg2.Error` handler only
logs and returns, so the claim's "surfaced to the caller" part is false
at this input. -/
theorem save_error_swallowed_cex :
    (save_task_status_run true
        { task_id := "t1", task_type := "main_analysis", now := 0 }
        []).rolledBack = true ∧
    (save_task_status_run true
        { task_id := "t1", task_type := "main_analysis", now := 0 }
        []).raised = false := by
  exact ⟨rfl, rfl⟩

/-- Claim C3 amended: for every `save_task_status` write on which the
store raises a transient error, the in-flight transaction is rolled back
and the store is left unchanged, but the exception is caught inside the
function (logged only) and never propagates to its caller. -/
theorem save_error_rolls_back_and_swallows (c : SaveCall) (s : Store) :
    (save_task_status_run true c s).rolledBack = true ∧
    (save_task_status_run true c s).store = s ∧
    (save_task_status_run true c s).raised = false :=
  ⟨rfl, rfl, rfl⟩

/-- `running_time_seconds` as computed inside
`get_last_overall_task_status_endpoint`.  The Python test there is the
truthiness check `if start_time:`, under which a stored `start_time` of
`0` takes the "unset" branch; `end_time` if set is used as the effective
end, else the current time; the difference is clamped at zero. -/
def last_task_running_time (now : ℚ) (start_time end_time : Option ℚ) :
    ℚ :=
  match start_time with
  | some t => if t = 0 then 0 else max 0 ((end_time.getD now) - t)
  | none => 0

/-- Counterexample to claim C9 as stated: the record with
`start_time = 0` and `end_time = 50` has `start_time` set, so the claim
requires running time `max 0 (50 - 0) = 50`, but the last-task endpoint
computes `0` (Python truthiness treats `0.0` like `None`). -/
theorem running_time_truthiness_cex :
    last_task_running_time 100 (some 0) (some 50) = 0 ∧
    max 0 ((50 : ℚ) - 0) = 50 := by
  constructor
  · simp [last_task_running_time]
  · norm_num

/-- Claim C9 amended: `running_time_seconds` is derived at read time from
the raw timestamps and is always nonnegative; it is `0` whenever
`start_time` is unset; when `start_time` is set, `get_task_info_from_db`
returns `max 0 (end_time_effective - start_time)` exactly, and the
last-task endpoint returns the same except that a set `start_time` equal
to `0` is treated as unset (yielding `0`). -/
theorem running_time_derivation (now t : ℚ) (st et : Option ℚ)
    (row : TaskRow) :
    (0 ≤ runningTimeDb now row) ∧
    (row.start_time = none → runningTimeDb now row = 0) ∧
    (row.start_time = some t →
      runningTimeDb now row = max 0 ((row.end_time.getD now) - t)) ∧
    (0 ≤ last_task_running_time now st et) ∧
    (st = none → last_task_running_time now st et = 0) ∧
    (t ≠ 0 →
      last_task_running_time now (some t) et = max 0 ((et.getD now) - t)) ∧
    (last_task_running_time now (some 0) et = 0) := by
  refine ⟨?_, ?_, ?_, ?_, ?_, ?_, ?_⟩
  · unfold runningTimeDb
    cases row.start_time with
    | none => simp
    | some t0 => exact le_max_left 0 _
  · intro h; simp [runningTimeDb, h]
  · intro h; simp [runningTimeDb, h]
  · unfold last_task_running_time
    cases st with
    | none => simp
    | some t0 =>
      by_cases h0 : t0 = 0
      · simp [h0]
      · simp only [h0, if_false]
        exact le_max_left 0 _
  · intro h; simp [last_task_running_time, h]
  · intro h; simp [last_task_running_time, h]
  · simp [last_task_running_time]

/-- Witness for the amended C9 at concrete inputs. -/
theorem running_time_derivation_witness :
    ((some (5 : ℚ) = (none : Option ℚ)) = False) ∧
    ((3 : ℚ) ≠ 0) ∧
    (runningTimeDb 10
      { task_id := "t1", parent_task_id := none,
        task_type := "main_analysis", sub_type_identifier := none,
        status := .STARTED, progress := 0, details := none,
        timestamp := 0, start_time := some 5, end_time := none } =
      max 0 ((10 : ℚ) - 5)) ∧
    (last_task_running_time 10 (some 3) none = max 0 ((10 : ℚ) - 3)) ∧
    (last_task_running_time 10 (some 0) none = 0) := by
  have h := running_time_derivation 10 3 (some 3) none
    { task_id := "t1", parent_task_id := none,
      task_type := "main_analysis", sub_type_identifier := none,
      status := .STARTED, progress := 0, details := none,
      timestamp := 0, start_time := some 5, end_time := none }
  refine ⟨by simp, by norm_num, ?_, ?_, ?_⟩
  · have h2 := running_time_derivation 10 5 (some 3) none
      { task_id := "t1", parent_task_id := none,
        task_type := "main_analysis", sub_type_identifier := none,
        status := .STARTED, progress := 0, details := none,
        timestamp := 0, start_time := some 5, end_time := none }
    exact h2.2.2.1 rfl
  · exact h.2.2.2.2.2.1 (by norm_num)
  · exact h.2.2.2.2.2.2

/-- The live job object `get_task_status_endpoint` reads from RQ:
`job.get_status()` plus the `job.meta` keys it consults and
`job.exc_info`. -/
structure RQJob where
  status : RQStatus
  status_message : Option String := none
  progress : Option Nat := none
  details : Option Details := none
  exc_info : Option String := none
deriving DecidableEq

/-- The merged status object the reconciler builds, plus the HTTP code it
answers with. -/
structure StatusResponse where
  task_id : String
  state : String
  status_message : String
  progress : Nat
  details : Details
  task_type_from_db : Option String
  running_time_seconds : ℚ
  httpStatus : Nat
deriving DecidableEq

/-- `{**db_details, **response['details']}`: dict merge in which the live
(RQ) side wins on conflicting keys. -/
def mergeDetails (db rq : Details) : Details where
  log := rq.log <|> db.log
  log_storage_info := rq.log_storage_info <|> db.log_storage_info
  message := rq.message <|> db.message
  status_message := rq.status_message <|> db.status_message
  original_status_before_archival :=
    rq.original_status_before_archival <|> db.original_status_before_archival
  archival_reason := rq.archival_reason <|> db.archival_reason
  checked_album_ids := rq.checked_album_ids <|> db.checked_album_ids
  clustering_run_job_ids :=
    rq.clustering_run_job_ids <|> db.clustering_run_job_ids
  error_message := rq.error_message <|> db.error_message
  raw_details := rq.raw_details <|> db.raw_details
  error := rq.error <|> db.error
  best_params := rq.best_params <|> db.best_params

/-- Python `'analysis' in task_type`. -/
def containsAnalysis (s : String) : Bool :=
  (s.splitOn "analysis").length != 1

/-- `json.loads(db_task_info.get('details')) if db_task_info.get('details')
else {}` — the unguarded parse of the stored details text; a non-empty
text that does not parse raises out of the endpoint. -/
def loadDbDetails : Option DetailsText → Except String Details
  | none => Except.ok {}
  | some (.valid d) => Except.ok d
  | some (.malformed raw) =>
      if raw = "" then Except.ok {} else Except.error "JSONDecodeError"

/-- The response post-processing at the end of `get_task_status_endpoint`:
prune `checked_album_ids` for analysis-typed tasks, and collapse a log of
more than 10 entries into one summary entry plus the last 10. -/
def finishResponse (r : StatusResponse) : StatusResponse :=
  let analysisTask : Bool := match r.task_type_from_db with
    | some t => containsAnalysis t
    | none => false
  let d1 := if analysisTask then { r.details with checked_album_ids := none }
            else r.details
  let d2 := match d1.log with
    | some l =>
        if l.length > 10 then
          { d1 with log := some (("... (" ++ toString (l.length - 10)
              ++ " earlier log entries truncated)") :: l.drop (l.length - 10)) }
        else d1
    | none => d1
  { r with details := d2 }


/-- Step 1 of the reconciliation (`app.py` 660-679): start from the
UNKNOWN defaults; if `Job.fetch` succeeds, seed the response from the
live job state and map the terminal engine states (`failed` sets an
error message and the message "FAILED"; `finished` sets "SUCCESS" with
progress 100; `canceled` sets "CANCELED" with progress 100; no progress
override happens for `failed`). -/
def seedFromRQ (task_id : String) (rq : Option RQJob) : StatusResponse :=
  let r0 : StatusResponse :=
    { task_id := task_id, state := "UNKNOWN",
      status_message := "Task ID not found in RQ or DB.", progress := 0,
      details := {}, task_type_from_db := none, running_time_seconds := 0,
      httpStatus := 200 }
  match rq with
  | none => r0
  | some job =>
    let base := { r0 with
      state := job.status.str,
      status_message := job.status_message.getD job.status.str,
      progress := job.progress.getD 0,
      details := job.details.getD {} }
    if job.status = RQStatus.failed then
      { base with
        details := { base.details with
          error_message := some (match job.exc_info with
            | some e => if e = "" then "Job failed without error info."
                        else e
            | none => "Job failed without error info.") },
        status_message := "FAILED" }
    else if job.status = RQStatus.finished then
      { base with status_message := "SUCCESS", progress := 100 }
    else if job.status = RQStatus.canceled then
      { base with status_message := "CANCELED", progress := 100 }
    else base

/-- Step 3 of the reconciliation (`app.py` 682-699), given the parsed
stored details: record the task type and derived running time; keep the
engine state only if it is one of the engine's own terminal states, else
prefer the store's status; take the store's progress; merge details with
live keys winning; and if the store says REVOKED, override state, message
and progress unconditionally. -/
def mergeStep (now : ℚ) (r1 : StatusResponse) (row : TaskRow)
    (dbDetails : Details) : StatusResponse :=
  let r2 := { r1 with
    task_type_from_db := some row.task_type,
    running_time_seconds := runningTimeDb now row }
  let r3 :=
    if r2.state = "finished" ∨ r2.state = "failed" ∨ r2.state = "canceled"
    then r2 else { r2 with state := row.status.str }
  let r4 := { r3 with progress := row.progress }
  let r5 := { r4 with details := mergeDetails dbDetails r4.details }
  if row.status = TaskStatus.REVOKED then
    { r5 with
      state := "REVOKED",
      status_message := "Task revoked.",
      progress := 100 }
  else r5

/-- `get_task_status_endpoint`: merge the live RQ view of `task_id` with
its durable row into one status object.  Returns `Except.error` where the
Python raises (the bare `json.loads` on the stored details has no
handler); answers 404 when neither system knows the id. -/
def get_task_status_endpoint (now : ℚ) (task_id : String)
    (rq : Option RQJob) (dbrow : Option TaskRow) :
    Except String StatusResponse :=
  match dbrow with
  | some row =>
    match loadDbDetails row.details with
    | Except.error e => Except.error e
    | Except.ok dbDetails =>
        Except.ok (finishResponse
          (mergeStep now (seedFromRQ task_id rq) row dbDetails))
  | none =>
    if (seedFromRQ task_id rq).state = "UNKNOWN" then
      Except.ok { seedFromRQ task_id rq with httpStatus := 404 }
    else Except.ok (finishResponse (seedFromRQ task_id rq))

example :
    (get_task_status_endpoint 0 "t1" none none).toOption.map
      StatusResponse.httpStatus = some 404 := by decide

example :
    (get_task_status_endpoint 0 "t1"
        (some { status := RQStatus.finished }) none).toOption.map
      (fun r => (r.status_message, r.progress)) = some ("SUCCESS", 100) := by
  decide

/-- The response post-processing touches only `details`: `state`,
`status_message`, `progress` and the HTTP code pass through. -/
theorem finishResponse_fields (r : StatusResponse) :
    (finishResponse r).state = r.state ∧
    (finishResponse r).status_message = r.status_message ∧
    (finishResponse r).progress = r.progress ∧
    (finishResponse r).httpStatus = r.httpStatus := by
  unfold finishResponse
  exact ⟨rfl, rfl, rfl, rfl⟩

/-- The response post-processing rewrites only the `checked_album_ids`
and `log` keys of `details`; in particular `error_message` passes
through. -/
theorem finishResponse_error_message (r : StatusResponse) :
    (finishResponse r).details.error_message = r.details.error_message := by
  unfold finishResponse
  dsimp only
  split <;> split <;> first | rfl | (split <;> rfl)

/-- When the store row is REVOKED, the merge step forces the revocation
view whatever the live seed said. -/
theorem mergeStep_revoked (now : ℚ) (r1 : StatusResponse) (row : TaskRow)
    (d : Details) (hrev : row.status = TaskStatus.REVOKED) :
    (mergeStep now r1 row d).state = "REVOKED" ∧
    (mergeStep now r1 row d).status_message = "Task revoked." ∧
    (mergeStep now r1 row d).progress = 100 ∧
    (mergeStep now r1 row d).httpStatus = r1.httpStatus := by
  have h4 : ∀ (x : StatusResponse) (str0 : String),
      ((if x.state = "finished" ∨ x.state = "failed" ∨ x.state = "canceled"
        then x else { x with state := str0 }) : StatusResponse).httpStatus
        = x.httpStatus := by
    intro x str0
    split <;> rfl
  unfold mergeStep
  rw [hrev]
  exact ⟨rfl, rfl, rfl, h4 _ _⟩

/-- The stored details text is readable by `json.loads`, or is falsy
(NULL or the empty string) and skipped. -/
def detailsReadable : Option DetailsText → Bool
  | some (.malformed raw) => raw == ""
  | _ => true

/-- A readable details text never raises out of the parse. -/
theorem loadDbDetails_readable (o : Option DetailsText)
    (h : detailsReadable o = true) :
    ∃ d, loadDbDetails o = Except.ok d := by
  match o with
  | none => exact ⟨{}, rfl⟩
  | some (.valid d) => exact ⟨d, rfl⟩
  | some (.malformed raw) =>
    simp only [detailsReadable, beq_iff_eq] at h
    exact ⟨{}, by simp [loadDbDetails, h]⟩

/-- Counterexample to claim C2 as stated: a store row with status REVOKED
whose persisted details text does not parse makes the reconciliation
raise (`json.loads` is unguarded), so the REVOKED response is not
returned for every REVOKED row — even with the engine still reporting the
job as started. -/
theorem revoked_override_malformed_cex :
    get_task_status_endpoint 0 "t1" (some { status := RQStatus.started })
      (some { task_id := "t1", parent_task_id := none,
              task_type := "main_analysis", sub_type_identifier := none,
              status := TaskStatus.REVOKED, progress := 40,
              details := some (DetailsText.malformed "not-json"),
              timestamp := 0, start_time := none, end_time := none })
      = Except.error "JSONDecodeError" := rfl

/-- Claim C2 amended: for every `task_id` whose store row has status
REVOKED and whose persisted details column is NULL, empty, or valid JSON,
the reconciliation returns final state REVOKED, message "Task revoked.",
and progress 100 (HTTP 200), regardless of any live state the Queue
Engine reports for that `task_id` — including a still-reported started
job. -/
theorem revoked_store_overrides (now : ℚ) (task_id : String)
    (rq : Option RQJob) (row : TaskRow)
    (hrev : row.status = TaskStatus.REVOKED)
    (hd : detailsReadable row.details = true) :
    ∃ resp,
      get_task_status_endpoint now task_id rq (some row) = Except.ok resp ∧
      resp.state = "REVOKED" ∧ resp.status_message = "Task revoked." ∧
      resp.progress = 100 ∧ resp.httpStatus = 200 := by
  obtain ⟨d0, hd0⟩ := loadDbDetails_readable row.details hd
  have hm := mergeStep_revoked now (seedFromRQ task_id rq) row d0 hrev
  have hf := finishResponse_fields (mergeStep now (seedFromRQ task_id rq)
    row d0)
  have hseed : (seedFromRQ task_id rq).httpStatus = 200 := by
    unfold seedFromRQ
    match rq with
    | none => rfl
    | some job =>
      dsimp only
      split
      · rfl
      · split
        · rfl
        · split <;> rfl
  refine ⟨finishResponse (mergeStep now (seedFromRQ task_id rq) row d0),
    ?_, ?_, ?_, ?_, ?_⟩
  · unfold get_task_status_endpoint
    dsimp only
    rw [hd0]
  · exact hf.1.trans hm.1
  · exact hf.2.1.trans hm.2.1
  · exact hf.2.2.1.trans hm.2.2.1
  · exact hf.2.2.2.trans (hm.2.2.2.trans hseed)

/-- Witness for the amended C2: a REVOKED row with progress 40 and NULL
details, while the engine still reports the job as started. -/
theorem revoked_store_overrides_witness :
    (({ task_id := "t1", parent_task_id := none,
        task_type := "main_analysis", sub_type_identifier := none,
        status := TaskStatus.REVOKED, progress := 40, details := none,
        timestamp := 0, start_time := none,
        end_time := none } : TaskRow).status = TaskStatus.REVOKED) ∧
    (detailsReadable (none : Option DetailsText) = true) ∧
    (∃ resp,
      get_task_status_endpoint 0 "t1" (some { status := RQStatus.started })
        (some { task_id := "t1", parent_task_id := none,
                task_type := "main_analysis", sub_type_identifier := none,
                status := TaskStatus.REVOKED, progress := 40,
                details := none, timestamp := 0, start_time := none,
                end_time := none })
        = Except.ok resp ∧
      resp.state = "REVOKED" ∧ resp.status_message = "Task revoked." ∧
      resp.progress = 100 ∧ resp.httpStatus = 200) :=
  ⟨rfl, rfl,
    revoked_store_overrides 0 "t1" (some { status := RQStatus.started })
      { task_id := "t1", parent_task_id := none,
        task_type := "main_analysis", sub_type_identifier := none,
        status := TaskStatus.REVOKED, progress := 40, details := none,
        timestamp := 0, start_time := none, end_time := none }
      rfl rfl⟩

/-- No RQ job state prints as the sentinel "UNKNOWN". -/
theorem rqStatus_str_ne_unknown (st : RQStatus) : st.str ≠ "UNKNOWN" := by
  cases st <;> decide

/-- When a live job exists, the seeded `state` is the raw engine state
string (the terminal mappings rewrite only message and progress). -/
theorem seedFromRQ_state (id : String) (job : RQJob) :
    (seedFromRQ id (some job)).state = job.status.str := by
  unfold seedFromRQ
  dsimp only
  split
  · rfl
  · split
    · rfl
    · split <;> rfl

/-- With no durable row, the reconciliation answers 200 with the
post-processed live seed (the job state is never "UNKNOWN"). -/
theorem endpoint_rq_only (now : ℚ) (id : String) (job : RQJob) :
    get_task_status_endpoint now id (some job) none
      = Except.ok (finishResponse (seedFromRQ id (some job))) := by
  unfold get_task_status_endpoint
  dsimp only
  rw [seedFromRQ_state, if_neg (rqStatus_str_ne_unknown job.status)]

/-- The seed for a finished job: "SUCCESS" with progress forced to 100. -/
theorem seedFromRQ_finished (id : String) (job : RQJob)
    (h : job.status = RQStatus.finished) :
    (seedFromRQ id (some job)).state = "finished" ∧
    (seedFromRQ id (some job)).status_message = "SUCCESS" ∧
    (seedFromRQ id (some job)).progress = 100 := by
  unfold seedFromRQ
  dsimp only
  rw [h]
  exact ⟨rfl, rfl, rfl⟩

/-- The seed for a canceled job: "CANCELED" with progress forced to 100. -/
theorem seedFromRQ_canceled (id : String) (job : RQJob)
    (h : job.status = RQStatus.canceled) :
    (seedFromRQ id (some job)).state = "canceled" ∧
    (seedFromRQ id (some job)).status_message = "CANCELED" ∧
    (seedFromRQ id (some job)).progress = 100 := by
  unfold seedFromRQ
  dsimp only
  rw [h]
  exact ⟨rfl, rfl, rfl⟩

/-- The seed for a failed job: message "FAILED", an error message added
to details, and progress left at the live meta value. -/
theorem seedFromRQ_failed (id : String) (job : RQJob)
    (h : job.status = RQStatus.failed) :
    (seedFromRQ id (some job)).state = "failed" ∧
    (seedFromRQ id (some job)).status_message = "FAILED" ∧
    (seedFromRQ id (some job)).progress = job.progress.getD 0 ∧
    (seedFromRQ id (some job)).details.error_message.isSome = true := by
  unfold seedFromRQ
  dsimp only
  rw [h]
  exact ⟨rfl, rfl, rfl, rfl⟩

/-- Counterexample to claim C7 as stated: a failed engine job with live
progress 42 (and no durable row) is reconciled to message "FAILED" — not
"FAILURE" — with progress left at 42, so progress is not forced to 100
on the failed mapping. -/
theorem engine_failed_mapping_cex :
    get_task_status_endpoint 0 "t1"
        (some { status := RQStatus.failed, progress := some 42 }) none
      = Except.ok
        { task_id := "t1", state := "failed", status_message := "FAILED",
          progress := 42,
          details :=
            { error_message := some "Job failed without error info." },
          task_type_from_db := none, running_time_seconds := 0,
          httpStatus := 200 } ∧
    (42 : Nat) ≠ 100 ∧ ("FAILED" : String) ≠ "FAILURE" :=
  ⟨rfl, by decide, by decide⟩

/-- Claim C7 amended: for a `task_id` whose engine job is terminal (and
with no durable row contributing), the reconciliation maps
`finished` to message "SUCCESS" with progress forced to 100 and
`canceled` to message "CANCELED" with progress forced to 100, but maps
`failed` to message "FAILED" (recording an error message in details)
with progress left at the live meta value; the `state` field keeps the
raw engine string in each case. -/
theorem engine_terminal_mapping (now : ℚ) (id : String) (job : RQJob) :
    (job.status = RQStatus.finished →
      ∃ resp, get_task_status_endpoint now id (some job) none
          = Except.ok resp ∧
        resp.state = "finished" ∧ resp.status_message = "SUCCESS" ∧
        resp.progress = 100) ∧
    (job.status = RQStatus.canceled →
      ∃ resp, get_task_status_endpoint now id (some job) none
          = Except.ok resp ∧
        resp.state = "canceled" ∧ resp.status_message = "CANCELED" ∧
        resp.progress = 100) ∧
    (job.status = RQStatus.failed →
      ∃ resp, get_task_status_endpoint now id (some job) none
          = Except.ok resp ∧
        resp.state = "failed" ∧ resp.status_message = "FAILED" ∧
        resp.progress = job.progress.getD 0 ∧
        resp.details.error_message.isSome = true) := by
  have hf := finishResponse_fields (seedFromRQ id (some job))
  refine ⟨?_, ?_, ?_⟩
  · intro h
    have hs := seedFromRQ_finished id job h
    exact ⟨_, endpoint_rq_only now id job, hf.1.trans hs.1,
      hf.2.1.trans hs.2.1, hf.2.2.1.trans hs.2.2⟩
  · intro h
    have hs := seedFromRQ_canceled id job h
    exact ⟨_, endpoint_rq_only now id job, hf.1.trans hs.1,
      hf.2.1.trans hs.2.1, hf.2.2.1.trans hs.2.2⟩
  · intro h
    have hs := seedFromRQ_failed id job h
    refine ⟨_, endpoint_rq_only now id job, hf.1.trans hs.1,
      hf.2.1.trans hs.2.1, hf.2.2.1.trans hs.2.2.1, ?_⟩
    rw [finishResponse_error_message]
    exact hs.2.2.2

/-- Witness for the amended C7 at three concrete jobs, one per terminal
engine state. -/
theorem engine_terminal_mapping_witness :
    (∃ resp, get_task_status_endpoint 0 "t1"
        (some { status := RQStatus.finished, progress := some 60 }) none
        = Except.ok resp ∧
      resp.state = "finished" ∧ resp.status_message = "SUCCESS" ∧
      resp.progress = 100) ∧
    (∃ resp, get_task_status_endpoint 0 "t2"
        (some { status := RQStatus.canceled }) none
        = Except.ok resp ∧
      resp.state = "canceled" ∧ resp.status_message = "CANCELED" ∧
      resp.progress = 100) ∧
    (∃ resp, get_task_status_endpoint 0 "t3"
        (some { status := RQStatus.failed, progress := some 42 }) none
        = Except.ok resp ∧
      resp.state = "failed" ∧ resp.status_message = "FAILED" ∧
      resp.progress = ((some 42 : Option Nat).getD 0) ∧
      resp.details.error_message.isSome = true) :=
  ⟨(engine_terminal_mapping 0 "t1"
      { status := RQStatus.finished, progress := some 60 }).1 rfl,
   (engine_terminal_mapping 0 "t2"
      { status := RQStatus.canceled }).2.1 rfl,
   (engine_terminal_mapping 0 "t3"
      { status := RQStatus.failed, progress := some 42 }).2.2 rfl⟩

/-- The JSON object `get_active_tasks_endpoint` renders for the selected
active main task row. -/
structure ActiveItem where
  task_id : String
  parent_task_id : Option String
  task_type : String
  sub_type_identifier : Option String
  status : TaskStatus
  progress : Nat
  details : Option DetailsText
  running_time_seconds : ℚ
deriving DecidableEq

/-- The per-row rendering of `get_active_tasks_endpoint` (applied to the
row its query selects): derive the running time (with the same `if
start_time:` truthiness as the last-task endpoint), and parse the stored
details text if it is truthy — on parse failure substitute the raw text
plus an explicit parse-error marker, on success prune the
`clustering_run_job_ids` and `checked_album_ids` keys.  The subsequent
`best_params` condition indexes `['clustering_method_config']['params']`
before checking that the key exists, so a config without a `params` key
raises KeyError; when `params` exists, the test `'params' in ...` is
against the params object itself, which has no such key, so the
`initial_centroids` prune is unreachable. -/
def get_active_tasks_item (now : ℚ) (row : TaskRow) :
    Except String ActiveItem :=
  let rt : ℚ := match row.start_time with
    | some t => if t = 0 then 0 else max 0 (now - t)
    | none => 0
  match (match row.details with
    | none => Except.ok (none : Option DetailsText)
    | some (DetailsText.malformed raw) =>
        if raw = "" then Except.ok (some (DetailsText.malformed raw))
        else Except.ok (some (DetailsText.valid
          { raw_details := some raw,
            error := some "Failed to parse details JSON." }))
    | some (DetailsText.valid d) =>
        let d1 := { d with
          clustering_run_job_ids := (none : Option (List String)),
          checked_album_ids := (none : Option (List String)) }
        match d1.best_params with
        | none => Except.ok (some (DetailsText.valid d1))
        | some bp =>
          match bp.clustering_method_config with
          | none => Except.ok (some (DetailsText.valid d1))
          | some cmc =>
            match cmc.params with
            | none => Except.error "KeyError"
            | some _ => Except.ok (some (DetailsText.valid d1))) with
  | Except.error e => Except.error e
  | Except.ok dets =>
      Except.ok
        { task_id := row.task_id,
          parent_task_id := row.parent_task_id,
          task_type := row.task_type,
          sub_type_identifier := row.sub_type_identifier,
          status := row.status, progress := row.progress,
          details := dets, running_time_seconds := rt }

/-- Counterexample to claim C8 as stated: on a row whose persisted
details text is malformed JSON, the per-task status reconciliation does
not return normally with a fallback — it raises out of the unguarded
`json.loads`. -/
theorem malformed_details_crash_cex :
    get_task_status_endpoint 0 "t1" none
      (some { task_id := "t1", parent_task_id := none,
              task_type := "main_analysis", sub_type_identifier := none,
              status := TaskStatus.STARTED, progress := 10,
              details := some (DetailsText.malformed "not-json"),
              timestamp := 0, start_time := none, end_time := none })
      = Except.error "JSONDecodeError" := rfl

/-- Claim C8 amended: for every row whose persisted details column holds
(non-empty) malformed JSON, the active-task view returns normally with a
raw-details fallback carrying the explicit parse-error marker, but the
per-task status reconciliation raises on the parse failure instead of
returning. -/
theorem malformed_details_read_paths (now : ℚ) (id : String)
    (rq : Option RQJob) (row : TaskRow) (raw : String)
    (hraw : raw ≠ "") (hd : row.details = some (DetailsText.malformed raw)) :
    (∃ item, get_active_tasks_item now row = Except.ok item ∧
      item.details = some (DetailsText.valid
        { raw_details := some raw,
          error := some "Failed to parse details JSON." })) ∧
    get_task_status_endpoint now id rq (some row)
      = Except.error "JSONDecodeError" := by
  constructor
  · unfold get_active_tasks_item
    dsimp only
    rw [hd]
    dsimp only
    rw [if_neg hraw]
    exact ⟨_, rfl, rfl⟩
  · unfold get_task_status_endpoint
    dsimp only
    rw [hd]
    unfold loadDbDetails
    dsimp only
    rw [if_neg hraw]

/-- Witness for the amended C8 at a concrete malformed row. -/
theorem malformed_details_read_paths_witness :
    (("not-json" : String) ≠ "") ∧
    (({ task_id := "t2", parent_task_id := none,
        task_type := "main_clustering", sub_type_identifier := none,
        status := TaskStatus.PROGRESS, progress := 10,
        details := some (DetailsText.malformed "not-json"),
        timestamp := 0, start_time := some 3,
        end_time := none } : TaskRow).details
      = some (DetailsText.malformed "not-json")) ∧
    (∃ item, get_active_tasks_item 7
        { task_id := "t2", parent_task_id := none,
          task_type := "main_clustering", sub_type_identifier := none,
          status := TaskStatus.PROGRESS, progress := 10,
          details := some (DetailsText.malformed "not-json"),
          timestamp := 0, start_time := some 3, end_time := none }
        = Except.ok item ∧
      item.details = some (DetailsText.valid
        { raw_details := some "not-json",
          error := some "Failed to parse details JSON." })) ∧
    get_task_status_endpoint 7 "t2" none
      (some { task_id := "t2", parent_task_id := none,
              task_type := "main_clustering", sub_type_identifier := none,
              status := TaskStatus.PROGRESS, progress := 10,
              details := some (DetailsText.malformed "not-json"),
              timestamp := 0, start_time := some 3, end_time := none })
      = Except.error "JSONDecodeError" := by
  have h := malformed_details_read_paths 7 "t2" none
    { task_id := "t2", parent_task_id := none,
      task_type := "main_clustering", sub_type_identifier := none,
      status := TaskStatus.PROGRESS, progress := 10,
      details := some (DetailsText.malformed "not-json"),
      timestamp := 0, start_time := some 3, end_time := none }
    "not-json" (by decide) rfl
  exact ⟨by decide, rfl, h.1, h.2⟩

/-- The statuses `clean_up_previous_main_tasks` selects for archival (the
`non_terminal_statuses` tuple in the code: PENDING, STARTED, PROGRESS,
and SUCCESS). -/
def archivableStatus : TaskStatus → Bool
  | .PENDING => true
  | .STARTED => true
  | .PROGRESS => true
  | .SUCCESS => true
  | _ => false

/-- `WHERE status IN %s AND parent_task_id IS NULL`: the archival
sweep's selection predicate. -/
def eligibleForArchival (r : TaskRow) : Bool :=
  archivableStatus r.status && r.parent_task_id.isNone

/-- The fallback summary used when the stored details yield none. -/
def archivalDefaultMsg (s : TaskStatus) : String :=
  "Task was in \x27" ++ s.str ++ "\x27 state."

/-- The last known human-readable summary of a row being archived: the
stored `details.status_message` if the details text is truthy and parses
and the key is present, else the fallback (a parse failure is caught and
only logged here). -/
def archivalStatusMessage (r : TaskRow) : String :=
  match r.details with
  | some (.valid d) => d.status_message.getD (archivalDefaultMsg r.status)
  | _ => archivalDefaultMsg r.status

/-- The archival reason, depending on whether the root task had merely
succeeded or was stale. -/
def archivalReason (s : TaskStatus) : String :=
  if s = TaskStatus.SUCCESS then
    "New main task started, old successful task archived."
  else
    "New main task started, stale task (status: " ++ s.str
      ++ ") has been archived."

/-- The archived details object written over a selected row. -/
def archivedDetails (r : TaskRow) : Details :=
  { log := some ["[Archived] " ++ archivalReason r.status
      ++ ". Original summary: " ++ archivalStatusMessage r],
    original_status_before_archival := some r.status.str,
    archival_reason := some (archivalReason r.status) }

/-- The guarded `UPDATE ... WHERE task_id = %s AND status = %s` issued
for one selected snapshot row `t`, applied to a stored row. -/
def archUpdate (now : ℚ) (t : TaskRow) (row : TaskRow) : TaskRow :=
  if row.task_id = t.task_id ∧ row.status = t.status then
    { row with
      status := TaskStatus.REVOKED,
      details := some (DetailsText.valid (archivedDetails t)),
      progress := 100, timestamp := now }
  else row

/-- What a selected row becomes after its own guarded update. -/
def archRow (now : ℚ) (r : TaskRow) : TaskRow :=
  { r with
    status := TaskStatus.REVOKED,
    details := some (DetailsText.valid (archivedDetails r)),
    progress := 100, timestamp := now }

/-- `clean_up_previous_main_tasks`: select every archivable root task,
then issue one guarded update per selected row (counting each), in one
batch. -/
def clean_up_previous_main_tasks (now : ℚ) (s : Store) : Nat × Store :=
  let toArchive := s.filter eligibleForArchival
  toArchive.foldl
    (fun acc t => (acc.1 + 1, acc.2.map (archUpdate now t))) (0, s)

/-- The sweep's count is the number of selected rows. -/
theorem arch_foldl_count (now : ℚ) (ts : List TaskRow) :
    ∀ (n : Nat) (st : Store),
    (ts.foldl (fun acc t => (acc.1 + 1, acc.2.map (archUpdate now t)))
      (n, st)).1 = n + ts.length := by
  induction ts with
  | nil => intro n st; simp
  | cons t ts ih =>
    intro n st
    simp only [List.foldl_cons, List.length_cons]
    rw [ih]
    omega

/-- The sweep's sequence of per-row maps over the store fuses into one
map of the composed per-row update. -/
theorem arch_foldl_store (now : ℚ) (ts : List TaskRow) :
    ∀ (n : Nat) (st : Store),
    (ts.foldl (fun acc t => (acc.1 + 1, acc.2.map (archUpdate now t)))
      (n, st)).2
      = st.map (fun row => ts.foldl (fun row t => archUpdate now t row) row)
    := by
  induction ts with
  | nil => intro n st; simp
  | cons t ts ih =>
    intro n st
    simp only [List.foldl_cons]
    rw [ih, List.map_map]
    rfl

/-- Updates whose snapshot key differs from the row's key are skipped. -/
theorem arch_fold_skip (now : ℚ) (r0 : TaskRow) :
    ∀ (ts : List TaskRow),
    (∀ t ∈ ts, t.task_id ≠ r0.task_id) →
    ts.foldl (fun row t => archUpdate now t row) r0 = r0 := by
  intro ts
  induction ts with
  | nil => intro _; rfl
  | cons t ts ih =>
    intro h
    simp only [List.foldl_cons]
    have hskip : archUpdate now t r0 = r0 := by
      unfold archUpdate
      rw [if_neg]
      intro hc
      exact h t (by simp) hc.1.symm
    rw [hskip]
    exact ih (fun t2 ht2 => h t2 (List.mem_cons_of_mem t ht2))

/-- Composing the selected rows' guarded updates acts on a row `r` as:
archive it exactly if `r` itself was selected, else leave it alone —
provided the selected snapshots have pairwise distinct keys and each
either is `r` or has a different key. -/
theorem arch_fold_pointwise (now : ℚ) :
    ∀ (ts : List TaskRow) (r : TaskRow),
    (ts.map TaskRow.task_id).Nodup →
    (∀ t ∈ ts, t = r ∨ t.task_id ≠ r.task_id) →
    ts.foldl (fun row t => archUpdate now t row) r =
      if r ∈ ts then archRow now r else r := by
  intro ts
  induction ts with
  | nil => intro r _ _; simp
  | cons t ts ih =>
    intro r hnd hids
    simp only [List.map_cons, List.nodup_cons] at hnd
    obtain ⟨hhead, htail⟩ := hnd
    by_cases ht : t = r
    · subst ht
      simp only [List.foldl_cons]
      have h1 : archUpdate now t t = archRow now t := by
        unfold archUpdate archRow
        rw [if_pos ⟨rfl, rfl⟩]
      rw [h1]
      have hafter :
          ts.foldl (fun row t2 => archUpdate now t2 row) (archRow now t)
            = archRow now t := by
        refine arch_fold_skip now (archRow now t) ts (fun t2 ht2 hc => ?_)
        exact hhead (hc ▸ List.mem_map_of_mem TaskRow.task_id ht2)
      rw [hafter, if_pos (List.mem_cons_self t ts)]
    · have hne : t.task_id ≠ r.task_id := by
        rcases hids t (List.mem_cons_self t ts) with h | h
        · exact absurd h ht
        · exact h
      simp only [List.foldl_cons]
      have hskip : archUpdate now t r = r := by
        unfold archUpdate
        rw [if_neg]
        intro hc
        exact hne hc.1.symm
      rw [hskip,
        ih r htail (fun t2 ht2 => hids t2 (List.mem_cons_of_mem t ht2))]
      by_cases hm : r ∈ ts
      · rw [if_pos hm, if_pos (List.mem_cons_of_mem t hm)]
      · rw [if_neg hm, if_neg]
        intro hc
        rcases List.mem_cons.mp hc with h | h
        · exact ht h.symm
        · exact hm h

/-- Claim C4: the archival sweep counts exactly the selected root tasks
(status SUCCESS, PENDING, STARTED, or PROGRESS with NULL parent),
rewrites exactly those rows to REVOKED with progress 100 through the
status-guarded update, and a second run with no interleaved writes
selects nothing and archives zero, leaving the store unchanged. -/
theorem clean_up_idempotent (now now2 : ℚ) (s : Store)
    (hnd : (s.map TaskRow.task_id).Nodup) :
    (clean_up_previous_main_tasks now s).1
        = (s.filter eligibleForArchival).length ∧
    (clean_up_previous_main_tasks now s).2
        = s.map (fun r =>
            if eligibleForArchival r then archRow now r else r) ∧
    (∀ r : TaskRow, eligibleForArchival r = true →
      (archRow now r).status = TaskStatus.REVOKED ∧
      (archRow now r).progress = 100) ∧
    clean_up_previous_main_tasks now2
        (clean_up_previous_main_tasks now s).2
      = (0, (clean_up_previous_main_tasks now s).2) := by
  have hts_nodup :
      ((s.filter eligibleForArchival).map TaskRow.task_id).Nodup :=
    ((List.filter_sublist s).map TaskRow.task_id).nodup hnd
  have hstore : (clean_up_previous_main_tasks now s).2
      = s.map (fun r =>
          if eligibleForArchival r then archRow now r else r) := by
    unfold clean_up_previous_main_tasks
    rw [arch_foldl_store]
    apply List.map_congr_left
    intro r hr
    have hids : ∀ t ∈ s.filter eligibleForArchival,
        t = r ∨ t.task_id ≠ r.task_id := by
      intro t htmem
      by_cases hid : t.task_id = r.task_id
      · exact Or.inl
          (List.inj_on_of_nodup_map hnd (List.mem_of_mem_filter htmem)
            hr hid)
      · exact Or.inr hid
    rw [arch_fold_pointwise now (s.filter eligibleForArchival) r
      hts_nodup hids]
    by_cases he : eligibleForArchival r = true
    · rw [if_pos (List.mem_filter.mpr ⟨hr, he⟩), if_pos he]
    · rw [if_neg (fun hc => he (List.mem_filter.mp hc).2), if_neg he]
  have hcount : (clean_up_previous_main_tasks now s).1
      = (s.filter eligibleForArchival).length := by
    unfold clean_up_previous_main_tasks
    rw [arch_foldl_count]
    omega
  have hsecond : clean_up_previous_main_tasks now2
      (clean_up_previous_main_tasks now s).2
      = (0, (clean_up_previous_main_tasks now s).2) := by
    rw [hstore]
    have hfil : (s.map (fun r =>
        if eligibleForArchival r then archRow now r else r)).filter
        eligibleForArchival = [] := by
      rw [List.filter_eq_nil_iff]
      intro a ha
      obtain ⟨r, hr, rfl⟩ := List.mem_map.mp ha
      by_cases he : eligibleForArchival r = true
      · rw [if_pos he]
        simp [eligibleForArchival, archivableStatus, archRow]
      · rw [if_neg he]
        simpa using he
    unfold clean_up_previous_main_tasks
    rw [hfil]
    rfl
  exact ⟨hcount, hstore, fun r _ => ⟨rfl, rfl⟩, hsecond⟩

/-- A successful root task used by concrete witnesses. -/
def wrowA : TaskRow :=
  { task_id := "a", parent_task_id := none, task_type := "main_analysis",
    sub_type_identifier := none, status := .SUCCESS, progress := 100,
    details := none, timestamp := 0, start_time := some 1,
    end_time := some 2 }

/-- A stale root task used by concrete witnesses. -/
def wrowB : TaskRow :=
  { task_id := "b", parent_task_id := none,
    task_type := "main_clustering", sub_type_identifier := none,
    status := .STARTED, progress := 10, details := none, timestamp := 0,
    start_time := some 3, end_time := none }

/-- A non-root child task used by concrete witnesses. -/
def wrowC : TaskRow :=
  { task_id := "c", parent_task_id := some "b",
    task_type := "clustering_batch", sub_type_identifier := some "0",
    status := .PROGRESS, progress := 50, details := none, timestamp := 0,
    start_time := some 4, end_time := none }

/-- Witness for C4 on a concrete store: two archivable roots (one merely
successful, one stale) and one non-root child. -/
theorem clean_up_idempotent_witness :
    (([wrowA, wrowB, wrowC] : Store).map TaskRow.task_id).Nodup ∧
    (clean_up_previous_main_tasks 5 [wrowA, wrowB, wrowC]).1
        = (([wrowA, wrowB, wrowC] : Store).filter
            eligibleForArchival).length ∧
    (clean_up_previous_main_tasks 5 [wrowA, wrowB, wrowC]).2
        = ([wrowA, wrowB, wrowC] : Store).map (fun r =>
            if eligibleForArchival r then archRow 5 r else r) ∧
    clean_up_previous_main_tasks 6
        (clean_up_previous_main_tasks 5 [wrowA, wrowB, wrowC]).2
      = (0, (clean_up_previous_main_tasks 5 [wrowA, wrowB, wrowC]).2) ∧
    (clean_up_previous_main_tasks 5 [wrowA, wrowB, wrowC]).1 = 2 := by
  have h := clean_up_idempotent 5 6 [wrowA, wrowB, wrowC] (by decide)
  exact ⟨by decide, h.1, h.2.1, h.2.2.2, by decide⟩

/-- The two RQ interruption commands (`send_stop_job_command` for a
started job, `job.cancel()` for a merely queued one). -/
inductive RQCommand
  | stop
  | cancel
deriving DecidableEq

/-- The stop/cancel decision of `cancel_job_and_children_recursive`:
fetch the job; on `NoSuchJobError` no command (a normal, silent outcome);
if the job is already in a terminal RQ state no command; else stop a
started job and cancel a queued one. -/
def rqStopOrCancel (job : Option RQStatus) : Option RQCommand :=
  match job with
  | none => none
  | some st =>
    if st.terminalRQ then none
    else if st = RQStatus.started then some RQCommand.stop
    else some RQCommand.cancel

/-- The engine holds a live, non-terminal job for the id. -/
def liveNonTerminal (job : Option RQStatus) : Bool :=
  match job with
  | none => false
  | some st => ! st.terminalRQ

/-- A command is issued exactly for a live, non-terminal job. -/
theorem rqStopOrCancel_isSome (job : Option RQStatus) :
    (rqStopOrCancel job).isSome = liveNonTerminal job := by
  match job with
  | none => rfl
  | some st => cases st <;> rfl

/-- A row builder for concrete stores. -/
def mkRow (id : String) (parent : Option String) (ty : String)
    (st : TaskStatus) (pr : Nat) (dt : Option DetailsText) (ts : ℚ)
    (t1 t2 : Option ℚ) : TaskRow :=
  { task_id := id, parent_task_id := parent, task_type := ty,
    status := st, progress := pr, details := dt,
    sub_type_identifier := none, timestamp := ts, start_time := t1,
    end_time := t2 }

/-- `cancel_job_and_children_recursive`: returns the affected-job count
and the updated store.  The engine is read-only during the sweep (each
node is fetched once).  `fuel` bounds the recursion depth; the Python
recursion is unbounded, and every theorem below supplies fuel exceeding
the depth of the tree at hand, on which the two agree.  The unknown-type
arm models the best-effort fallback: no row and no caller-provided type
means an engine-only stop, counted when the fetch succeeds. -/
def cancel_job_and_children_recursive (eng : Engine) (now : ℚ) :
    Nat → Store → String → Option String → String → Nat × Store
  | 0, s, _, _, _ => (0, s)
  | fuel + 1, s, job_id, task_type_from_db, reason =>
    let current_task_type : Option String :=
      match dbFind s job_id with
      | some r => some r.task_type
      | none => task_type_from_db
    match current_task_type with
    | none =>
      match eng job_id with
      | some _ => (1, s)
      | none => (0, s)
    | some ty =>
      let s1 := save_task_status
        { task_id := job_id, task_type := ty,
          status := TaskStatus.REVOKED, progress := 100,
          details := some { message := some reason }, now := now } s
      let base : Nat := if (rqStopOrCancel (eng job_id)).isSome then 1
        else 0
      (childTasks s1 job_id).foldl
        (fun acc child =>
          match dbFind acc.2 child.task_id with
          | some cinfo =>
            if cinfo.status = TaskStatus.SUCCESS ∨
               cinfo.status = TaskStatus.FAILURE ∨
               cinfo.status = TaskStatus.REVOKED then acc
            else
              (acc.1 + (cancel_job_and_children_recursive eng now fuel
                  acc.2 child.task_id none
                  "Cancelled due to parent task revocation.").1,
                (cancel_job_and_children_recursive eng now fuel
                  acc.2 child.task_id none
                  "Cancelled due to parent task revocation.").2)
          | none => acc)
        (base, s1)

/-- The lookup at `o` shows a row revoked with progress 100 and the given
cancellation reason as its whole details object. -/
def revokedWith (o : Option TaskRow) (msg : String) : Prop :=
  match o with
  | some row => row.status = TaskStatus.REVOKED ∧ row.progress = 100 ∧
      row.details = some (DetailsText.valid { message := some msg })
  | none => False

/-- The cancellation sweep on the spec's example tree (root `r` with
children `c1`, `c2`, and grandchild `g` under `c1`), with every node's
stored status non-terminal under an arbitrary engine: all four rows end
REVOKED with progress 100 — the root with the caller's reason, every
descendant with the parent-revocation reason — and the count is exactly
the number of the four ids holding a live, non-terminal engine job.  The
fuel `f + 4` covers the tree's depth for any `f`. -/
theorem cancel_four_node_helper (eng : Engine) (now : ℚ) (f : Nat)
    (r c1 c2 g tR tC1 tC2 tG : String)
    (sR sC1 sC2 sG : TaskStatus)
    (pR pC1 pC2 pG : Nat) (dR dC1 dC2 dG : Option DetailsText)
    (tsR tsC1 tsC2 tsG : ℚ)
    (stR stC1 stC2 stG etR etC1 etC2 etG : Option ℚ)
    (reason : String)
    (h12 : r ≠ c1) (h13 : r ≠ c2) (h14 : r ≠ g)
    (h23 : c1 ≠ c2) (h24 : c1 ≠ g) (h34 : c2 ≠ g)
    (hR : ¬(sR = TaskStatus.SUCCESS ∨ sR = TaskStatus.FAILURE ∨
      sR = TaskStatus.REVOKED))
    (hC1 : ¬(sC1 = TaskStatus.SUCCESS ∨ sC1 = TaskStatus.FAILURE ∨
      sC1 = TaskStatus.REVOKED))
    (hC2 : ¬(sC2 = TaskStatus.SUCCESS ∨ sC2 = TaskStatus.FAILURE ∨
      sC2 = TaskStatus.REVOKED))
    (hG : ¬(sG = TaskStatus.SUCCESS ∨ sG = TaskStatus.FAILURE ∨
      sG = TaskStatus.REVOKED)) :
    (cancel_job_and_children_recursive eng now (f + 4)
        [mkRow r none tR sR pR dR tsR stR etR,
         mkRow c1 (some r) tC1 sC1 pC1 dC1 tsC1 stC1 etC1,
         mkRow c2 (some r) tC2 sC2 pC2 dC2 tsC2 stC2 etC2,
         mkRow g (some c1) tG sG pG dG tsG stG etG] r none reason).1
      = List.countP (fun id => liveNonTerminal (eng id)) [r, c1, c2, g] ∧
    revokedWith (dbFind (cancel_job_and_children_recursive eng now (f + 4)
        [mkRow r none tR sR pR dR tsR stR etR,
         mkRow c1 (some r) tC1 sC1 pC1 dC1 tsC1 stC1 etC1,
         mkRow c2 (some r) tC2 sC2 pC2 dC2 tsC2 stC2 etC2,
         mkRow g (some c1) tG sG pG dG tsG stG etG] r none reason).2 r)
      reason ∧
    revokedWith (dbFind (cancel_job_and_children_recursive eng now (f + 4)
        [mkRow r none tR sR pR dR tsR stR etR,
         mkRow c1 (some r) tC1 sC1 pC1 dC1 tsC1 stC1 etC1,
         mkRow c2 (some r) tC2 sC2 pC2 dC2 tsC2 stC2 etC2,
         mkRow g (some c1) tG sG pG dG tsG stG etG] r none reason).2 c1)
      "Cancelled due to parent task revocation." ∧
    revokedWith (dbFind (cancel_job_and_children_recursive eng now (f + 4)
        [mkRow r none tR sR pR dR tsR stR etR,
         mkRow c1 (some r) tC1 sC1 pC1 dC1 tsC1 stC1 etC1,
         mkRow c2 (some r) tC2 sC2 pC2 dC2 tsC2 stC2 etC2,
         mkRow g (some c1) tG sG pG dG tsG stG etG] r none reason).2 c2)
      "Cancelled due to parent task revocation." ∧
    revokedWith (dbFind (cancel_job_and_children_recursive eng now (f + 4)
        [mkRow r none tR sR pR dR tsR stR etR,
         mkRow c1 (some r) tC1 sC1 pC1 dC1 tsC1 stC1 etC1,
         mkRow c2 (some r) tC2 sC2 pC2 dC2 tsC2 stC2 etC2,
         mkRow g (some c1) tG sG pG dG tsG stG etG] r none reason).2 g)
      "Cancelled due to parent task revocation." := by
  have e4 : f + 4 = (f + 3) + 1 := rfl
  have e3 : f + 3 = (f + 2) + 1 := rfl
  have e2 : f + 2 = (f + 1) + 1 := rfl
  have h21 : c1 ≠ r := Ne.symm h12
  have h31 : c2 ≠ r := Ne.symm h13
  have h41 : g ≠ r := Ne.symm h14
  have h32 : c2 ≠ c1 := Ne.symm h23
  have h42 : g ≠ c1 := Ne.symm h24
  have h43 : g ≠ c2 := Ne.symm h34
  refine ⟨?_, ?_⟩
  · simp only [e4, e3, e2, cancel_job_and_children_recursive,
      save_task_status, dbFind, updateRows, upsertRow, normalizeDetails,
      childTasks, mkRow,
      h12, h13, h14, h23, h24, h34, h21, h31, h41, h32, h42, h43,
      hC1, hC2, hG, rqStopOrCancel_isSome,
      List.countP_cons, List.countP_nil, List.foldl_cons, List.foldl_nil,
      if_true, if_false, ite_true, ite_false, ne_eq, not_false_iff,
      reduceIte, Option.isSome_some, Option.isSome_none, iff_false,
      iff_true, not_false_eq_true, Option.some.injEq, reduceCtorEq]
    generalize liveNonTerminal (eng r) = b1
    generalize liveNonTerminal (eng c1) = b2
    generalize liveNonTerminal (eng c2) = b3
    generalize liveNonTerminal (eng g) = b4
    cases b1 <;> cases b2 <;> cases b3 <;> cases b4 <;> simp
  · simp only [e4, e3, e2, cancel_job_and_children_recursive,
      save_task_status, dbFind, updateRows, upsertRow, normalizeDetails,
      childTasks, mkRow, revokedWith,
      h12, h13, h14, h23, h24, h34, h21, h31, h41, h32, h42, h43,
      hC1, hC2, hG, rqStopOrCancel_isSome,
      List.countP_cons, List.countP_nil, List.foldl_cons, List.foldl_nil,
      if_true, if_false, ite_true, ite_false, ne_eq, not_false_iff,
      reduceIte, Option.isSome_some, Option.isSome_none, iff_false,
      iff_true, not_false_eq_true, Option.some.injEq, reduceCtorEq,
      Option.map_some', and_true, true_and, and_self]

/-- Claim C1: on a stored task tree of the spec's example shape — root
`r` with children `c1`, `c2` and grandchild `g` under `c1`, with distinct
ids and every node's stored status non-terminal at call time — the
recursive cancellation routine writes status REVOKED with progress 100
and details `{message: reason}` for every node of the tree (the root with
the caller's reason, each node reached through the child recursion with
the reason "Cancelled due to parent task revocation.", the recursion
descending only into children whose stored status is not SUCCESS,
FAILURE, or REVOKED), and returns a count equal to exactly the number of
nodes holding a live, non-terminal Queue Engine job — the nodes for
which a stop/cancel command was actually issued. -/
theorem cancel_tree_revokes_all_and_counts (eng : Engine) (now : ℚ)
    (f : Nat) (r c1 c2 g tR tC1 tC2 tG : String)
    (sR sC1 sC2 sG : TaskStatus)
    (pR pC1 pC2 pG : Nat) (dR dC1 dC2 dG : Option DetailsText)
    (tsR tsC1 tsC2 tsG : ℚ)
    (stR stC1 stC2 stG etR etC1 etC2 etG : Option ℚ)
    (reason : String)
    (h12 : r ≠ c1) (h13 : r ≠ c2) (h14 : r ≠ g)
    (h23 : c1 ≠ c2) (h24 : c1 ≠ g) (h34 : c2 ≠ g)
    (hR : ¬(sR = TaskStatus.SUCCESS ∨ sR = TaskStatus.FAILURE ∨
      sR = TaskStatus.REVOKED))
    (hC1 : ¬(sC1 = TaskStatus.SUCCESS ∨ sC1 = TaskStatus.FAILURE ∨
      sC1 = TaskStatus.REVOKED))
    (hC2 : ¬(sC2 = TaskStatus.SUCCESS ∨ sC2 = TaskStatus.FAILURE ∨
      sC2 = TaskStatus.REVOKED))
    (hG : ¬(sG = TaskStatus.SUCCESS ∨ sG = TaskStatus.FAILURE ∨
      sG = TaskStatus.REVOKED)) :
    (cancel_job_and_children_recursive eng now (f + 4)
        [mkRow r none tR sR pR dR tsR stR etR,
         mkRow c1 (some r) tC1 sC1 pC1 dC1 tsC1 stC1 etC1,
         mkRow c2 (some r) tC2 sC2 pC2 dC2 tsC2 stC2 etC2,
         mkRow g (some c1) tG sG pG dG tsG stG etG] r none reason).1
      = List.countP (fun id => liveNonTerminal (eng id)) [r, c1, c2, g] ∧
    revokedWith (dbFind (cancel_job_and_children_recursive eng now (f + 4)
        [mkRow r none tR sR pR dR tsR stR etR,
         mkRow c1 (some r) tC1 sC1 pC1 dC1 tsC1 stC1 etC1,
         mkRow c2 (some r) tC2 sC2 pC2 dC2 tsC2 stC2 etC2,
         mkRow g (some c1) tG sG pG dG tsG stG etG] r none reason).2 r)
      reason ∧
    revokedWith (dbFind (cancel_job_and_children_recursive eng now (f + 4)
        [mkRow r none tR sR pR dR tsR stR etR,
         mkRow c1 (some r) tC1 sC1 pC1 dC1 tsC1 stC1 etC1,
         mkRow c2 (some r) tC2 sC2 pC2 dC2 tsC2 stC2 etC2,
         mkRow g (some c1) tG sG pG dG tsG stG etG] r none reason).2 c1)
      "Cancelled due to parent task revocation." ∧
    revokedWith (dbFind (cancel_job_and_children_recursive eng now (f + 4)
        [mkRow r none tR sR pR dR tsR stR etR,
         mkRow c1 (some r) tC1 sC1 pC1 dC1 tsC1 stC1 etC1,
         mkRow c2 (some r) tC2 sC2 pC2 dC2 tsC2 stC2 etC2,
         mkRow g (some c1) tG sG pG dG tsG stG etG] r none reason).2 c2)
      "Cancelled due to parent task revocation." ∧
    revokedWith (dbFind (cancel_job_and_children_recursive eng now (f + 4)
        [mkRow r none tR sR pR dR tsR stR etR,
         mkRow c1 (some r) tC1 sC1 pC1 dC1 tsC1 stC1 etC1,
         mkRow c2 (some r) tC2 sC2 pC2 dC2 tsC2 stC2 etC2,
         mkRow g (some c1) tG sG pG dG tsG stG etG] r none reason).2 g)
      "Cancelled due to parent task revocation." :=
  cancel_four_node_helper eng now f r c1 c2 g tR tC1 tC2 tG sR sC1 sC2 sG
    pR pC1 pC2 pG dR dC1 dC2 dG tsR tsC1 tsC2 tsG
    stR stC1 stC2 stG etR etC1 etC2 etG reason
    h12 h13 h14 h23 h24 h34 hR hC1 hC2 hG

/-- An engine holding a started root job, a queued grandchild job, an
already-finished `c2` job, and nothing for `c1`. -/
def wEngLive : Engine := fun id =>
  if id = "r" then some RQStatus.started
  else if id = "g" then some RQStatus.queued
  else if id = "c2" then some RQStatus.finished
  else none

/-- Witness for C1 on a concrete tree and engine: two of the four nodes
hold live, non-terminal jobs (the started root and the queued
grandchild), so the count is 2 and all four rows end REVOKED. -/
theorem cancel_tree_revokes_all_and_counts_witness :
    (("r" : String) ≠ "c1") ∧
    (¬((TaskStatus.STARTED = TaskStatus.SUCCESS) ∨
       (TaskStatus.STARTED = TaskStatus.FAILURE) ∨
       (TaskStatus.STARTED = TaskStatus.REVOKED))) ∧
    (cancel_job_and_children_recursive wEngLive 9 (0 + 4)
        [mkRow "r" none "main_analysis" .STARTED 10 none 0 (some 1) none,
         mkRow "c1" (some "r") "album_analysis" .PENDING 0 none 0 none
           none,
         mkRow "c2" (some "r") "album_analysis" .PROGRESS 5 none 0
           (some 2) none,
         mkRow "g" (some "c1") "clustering_batch" .STARTED 7 none 0
           (some 3) none] "r" none "why").1
      = List.countP (fun id => liveNonTerminal (wEngLive id))
          ["r", "c1", "c2", "g"] ∧
    (List.countP (fun id => liveNonTerminal (wEngLive id))
        ["r", "c1", "c2", "g"]) = 2 ∧
    revokedWith (dbFind (cancel_job_and_children_recursive wEngLive 9
        (0 + 4)
        [mkRow "r" none "main_analysis" .STARTED 10 none 0 (some 1) none,
         mkRow "c1" (some "r") "album_analysis" .PENDING 0 none 0 none
           none,
         mkRow "c2" (some "r") "album_analysis" .PROGRESS 5 none 0
           (some 2) none,
         mkRow "g" (some "c1") "clustering_batch" .STARTED 7 none 0
           (some 3) none] "r" none "why").2 "g")
      "Cancelled due to parent task revocation." := by
  have h := cancel_tree_revokes_all_and_counts wEngLive 9 0
    "r" "c1" "c2" "g" "main_analysis" "album_analysis" "album_analysis"
    "clustering_batch" .STARTED .PENDING .PROGRESS .STARTED
    10 0 5 7 none none none none 0 0 0 0
    (some 1) none (some 2) (some 3) none none none none "why"
    (by decide) (by decide) (by decide) (by decide) (by decide)
    (by decide) (by decide) (by decide) (by decide) (by decide)
  exact ⟨by decide, by decide, h.1, by decide, h.2.2.2.2⟩

/-- The JSON body plus HTTP code `cancel_task_endpoint` answers with. -/
structure CancelResponse where
  httpStatus : Nat
  message : String
  cancelled_jobs_count : Option Nat
deriving DecidableEq

/-- `cancel_task_endpoint`: 404 when the row is missing; 400 when its
stored status is already terminal; otherwise run the recursive
cancellation (whose REVOKED writes are durable) and answer 200 when the
affected-job count is positive, else 400 with the could-not-cancel
message. -/
def cancel_task_endpoint (eng : Engine) (now : ℚ) (fuel : Nat)
    (s : Store) (task_id : String) : CancelResponse × Store :=
  match dbFind s task_id with
  | none =>
    ({ httpStatus := 404,
       message := "Task " ++ task_id ++ " not found in database.",
       cancelled_jobs_count := none }, s)
  | some row =>
    if row.status = TaskStatus.SUCCESS ∨ row.status = TaskStatus.FAILURE
        ∨ row.status = TaskStatus.REVOKED then
      ({ httpStatus := 400,
         message := "Task " ++ task_id
           ++ " is already in a terminal state (" ++ row.status.str
           ++ ") and cannot be cancelled.",
         cancelled_jobs_count := none }, s)
    else
      let res := cancel_job_and_children_recursive eng now fuel s task_id
        none ("Cancellation requested for task " ++ task_id ++ " via API.")
      if res.1 > 0 then
        ({ httpStatus := 200,
           message := "Task " ++ task_id
             ++ " and its children cancellation initiated. "
             ++ toString res.1 ++ " total jobs affected.",
           cancelled_jobs_count := some res.1 }, res.2)
      else
        ({ httpStatus := 400,
           message :=
             "Task could not be cancelled (e.g., already completed or not found in active state).",
           cancelled_jobs_count := none }, res.2)

/-- Claim C10: a cancellation request on a non-terminal root of the
example tree for which no node holds a live, non-terminal engine job
(affected count 0) is answered with HTTP 400 and "Task could not be
cancelled (e.g., already completed or not found in active state)." even
though the root and all of its non-terminal descendants were durably
marked REVOKED by that same call. -/
theorem cancel_endpoint_zero_count_contradiction (eng : Engine) (now : ℚ)
    (f : Nat) (r c1 c2 g tR tC1 tC2 tG : String)
    (sR sC1 sC2 sG : TaskStatus)
    (pR pC1 pC2 pG : Nat) (dR dC1 dC2 dG : Option DetailsText)
    (tsR tsC1 tsC2 tsG : ℚ)
    (stR stC1 stC2 stG etR etC1 etC2 etG : Option ℚ)
    (h12 : r ≠ c1) (h13 : r ≠ c2) (h14 : r ≠ g)
    (h23 : c1 ≠ c2) (h24 : c1 ≠ g) (h34 : c2 ≠ g)
    (hR : ¬(sR = TaskStatus.SUCCESS ∨ sR = TaskStatus.FAILURE ∨
      sR = TaskStatus.REVOKED))
    (hC1 : ¬(sC1 = TaskStatus.SUCCESS ∨ sC1 = TaskStatus.FAILURE ∨
      sC1 = TaskStatus.REVOKED))
    (hC2 : ¬(sC2 = TaskStatus.SUCCESS ∨ sC2 = TaskStatus.FAILURE ∨
      sC2 = TaskStatus.REVOKED))
    (hG : ¬(sG = TaskStatus.SUCCESS ∨ sG = TaskStatus.FAILURE ∨
      sG = TaskStatus.REVOKED))
    (hdead : ∀ id ∈ [r, c1, c2, g], liveNonTerminal (eng id) = false) :
    ∃ s2, cancel_task_endpoint eng now (f + 4)
        [mkRow r none tR sR pR dR tsR stR etR,
         mkRow c1 (some r) tC1 sC1 pC1 dC1 tsC1 stC1 etC1,
         mkRow c2 (some r) tC2 sC2 pC2 dC2 tsC2 stC2 etC2,
         mkRow g (some c1) tG sG pG dG tsG stG etG] r
        = ({ httpStatus := 400,
             message :=
               "Task could not be cancelled (e.g., already completed or not found in active state).",
             cancelled_jobs_count := none }, s2) ∧
      revokedWith (dbFind s2 r)
        ("Cancellation requested for task " ++ r ++ " via API.") ∧
      revokedWith (dbFind s2 c1)
        "Cancelled due to parent task revocation." ∧
      revokedWith (dbFind s2 c2)
        "Cancelled due to parent task revocation." ∧
      revokedWith (dbFind s2 g)
        "Cancelled due to parent task revocation." := by
  have h := cancel_four_node_helper eng now f r c1 c2 g tR tC1 tC2 tG
    sR sC1 sC2 sG pR pC1 pC2 pG dR dC1 dC2 dG tsR tsC1 tsC2 tsG
    stR stC1 stC2 stG etR etC1 etC2 etG
    ("Cancellation requested for task " ++ r ++ " via API.")
    h12 h13 h14 h23 h24 h34 hR hC1 hC2 hG
  have hd1 := hdead r (by simp)
  have hd2 := hdead c1 (by simp)
  have hd3 := hdead c2 (by simp)
  have hd4 := hdead g (by simp)
  have hcnt : (cancel_job_and_children_recursive eng now (f + 4)
      [mkRow r none tR sR pR dR tsR stR etR,
       mkRow c1 (some r) tC1 sC1 pC1 dC1 tsC1 stC1 etC1,
       mkRow c2 (some r) tC2 sC2 pC2 dC2 tsC2 stC2 etC2,
       mkRow g (some c1) tG sG pG dG tsG stG etG] r none
      ("Cancellation requested for task " ++ r ++ " via API.")).1 = 0 := by
    rw [h.1]
    simp [List.countP_cons, List.countP_nil, hd1, hd2, hd3, hd4]
  refine ⟨(cancel_job_and_children_recursive eng now (f + 4)
      [mkRow r none tR sR pR dR tsR stR etR,
       mkRow c1 (some r) tC1 sC1 pC1 dC1 tsC1 stC1 etC1,
       mkRow c2 (some r) tC2 sC2 pC2 dC2 tsC2 stC2 etC2,
       mkRow g (some c1) tG sG pG dG tsG stG etG] r none
      ("Cancellation requested for task " ++ r ++ " via API.")).2,
    ?_, h.2.1, h.2.2.1, h.2.2.2.1, h.2.2.2.2⟩
  unfold cancel_task_endpoint
  have hfind : dbFind
      [mkRow r none tR sR pR dR tsR stR etR,
       mkRow c1 (some r) tC1 sC1 pC1 dC1 tsC1 stC1 etC1,
       mkRow c2 (some r) tC2 sC2 pC2 dC2 tsC2 stC2 etC2,
       mkRow g (some c1) tG sG pG dG tsG stG etG] r
      = some (mkRow r none tR sR pR dR tsR stR etR) := by
    simp [dbFind, mkRow]
  rw [hfind]
  dsimp only
  rw [if_neg (by simpa [mkRow] using hR)]
  rw [hcnt]
  rfl

/-- An engine with no live, non-terminal job for any of the four ids
(the only job it still knows, `c2`, is already finished). -/
def wEngDead : Engine := fun id =>
  if id = "c2" then some RQStatus.finished else none

/-- Witness for C10 on a concrete tree: every engine lookup is dead, so
the endpoint reports the 400 failure although the whole tree was durably
revoked by the same call. -/
theorem cancel_endpoint_zero_count_contradiction_witness :
    (∀ id ∈ (["r", "c1", "c2", "g"] : List String),
      liveNonTerminal (wEngDead id) = false) ∧
    (∃ s2, cancel_task_endpoint wEngDead 9 (0 + 4)
        [mkRow "r" none "main_analysis" .STARTED 10 none 0 (some 1) none,
         mkRow "c1" (some "r") "album_analysis" .PENDING 0 none 0 none
           none,
         mkRow "c2" (some "r") "album_analysis" .PROGRESS 5 none 0
           (some 2) none,
         mkRow "g" (some "c1") "clustering_batch" .STARTED 7 none 0
           (some 3) none] "r"
        = ({ httpStatus := 400,
             message :=
               "Task could not be cancelled (e.g., already completed or not found in active state).",
             cancelled_jobs_count := none }, s2) ∧
      revokedWith (dbFind s2 "r")
        ("Cancellation requested for task " ++ "r" ++ " via API.") ∧
      revokedWith (dbFind s2 "c1")
        "Cancelled due to parent task revocation." ∧
      revokedWith (dbFind s2 "c2")
        "Cancelled due to parent task revocation." ∧
      revokedWith (dbFind s2 "g")
        "Cancelled due to parent task revocation.") :=
  ⟨by decide,
    cancel_endpoint_zero_count_contradiction wEngDead 9 0
      "r" "c1" "c2" "g" "main_analysis" "album_analysis" "album_analysis"
      "clustering_batch" .STARTED .PENDING .PROGRESS .STARTED
      10 0 5 7 none none none none 0 0 0 0
      (some 1) none (some 2) (some 3) none none none none
      (by decide) (by decide) (by decide) (by decide) (by decide)
      (by decide) (by decide) (by decide) (by decide) (by decide)
      (by decide)⟩
